import Mathlib

/-!
Shallow embedding of the timed question-response collector
(`UserQuestionEntry` and its helpers) of the vibe-kanban frontend.

The per-question answer handlers (`handleOptionChange`, `handleOtherToggle`,
`handleCustomTextChange`), the answered-guard `allQuestionsAnswered`, the
countdown arithmetic of `useQuestionCountdown`, and the submission flow
`handleSubmit` are translated directly from the source; timestamps are
integers (milliseconds), JavaScript numbers are modelled as exact integers
and rationals, and the JavaScript default array sort is modelled as sorting
by the decimal string representation of the elements.
-/

namespace VibeKanban

/-- Answer record for one question, mirroring the `QuestionAnswer` shape:
`question_index`, a `selected_options` list of option indices, and an
optional `custom_text` (absent means the "other" entry is not selected). -/
structure QuestionAnswer where
  question_index : Nat
  selected_options : List Nat
  custom_text : Option String
deriving DecidableEq, Repr

/-- Condition `answer.custom_text !== undefined && answer.custom_text !== null`
from the source, with both absent cases merged into `Option.none`. -/
def hasOtherSelected (answer : QuestionAnswer) : Bool :=
  answer.custom_text.isSome

/-- Order used by the JavaScript default `Array.prototype.sort()` on numbers:
elements are compared as strings (their decimal representations, in code-unit
lexicographic order); `a` precedes-or-ties `b` when `b`'s representation is
not lexicographically smaller than `a`'s. -/
def jsStrLe (a b : Nat) : Prop :=
  ¬ List.Lex (· < ·) (toString b).data (toString a).data

instance : DecidableRel jsStrLe := fun a b =>
  inferInstanceAs (Decidable (¬ List.Lex (· < ·) (toString b).data (toString a).data))

instance : IsTotal Nat jsStrLe :=
  ⟨fun a b => by
    by_cases h : List.Lex (· < ·) (toString b).data (toString a).data
    · exact Or.inr fun h2 => asymm h h2
    · exact Or.inl h⟩

instance : IsTrans Nat jsStrLe :=
  ⟨by
    intro a b c hab hbc hlex
    rcases @trichotomous (List Char) (List.Lex (· < ·)) _
        (toString a).data (toString b).data with h | h | h
    · exact hbc (IsTrans.trans _ _ _ hlex h)
    · exact hbc (h ▸ hlex)
    · exact hab h⟩

/-- Result of the JavaScript default `sort()` on a list of numbers: the
permutation of the list ordered by `jsStrLe` (string comparison). -/
def jsSort (l : List Nat) : List Nat := List.insertionSort jsStrLe l

/-- Translation of `handleOptionChange` (with the enclosing question's
`multiSelect` flag passed explicitly). -/
def handleOptionChange (multiSelect : Bool) (answer : QuestionAnswer)
    (optionIndex : Nat) (checked : Bool) : QuestionAnswer :=
  if multiSelect then
    if checked then
      { answer with selected_options := jsSort (answer.selected_options ++ [optionIndex]) }
    else
      { answer with selected_options := answer.selected_options.filter (fun i => i != optionIndex) }
  else
    let newSelectedOptions : List Nat := if checked then [optionIndex] else []
    if checked && hasOtherSelected answer then
      { answer with selected_options := newSelectedOptions, custom_text := none }
    else
      { answer with selected_options := newSelectedOptions }

/-- Translation of `handleOtherToggle`. -/
def handleOtherToggle (multiSelect : Bool) (answer : QuestionAnswer)
    (checked : Bool) : QuestionAnswer :=
  if checked then
    { answer with
      selected_options := if multiSelect then answer.selected_options else []
      custom_text := some "" }
  else
    { answer with custom_text := none }

/-- Translation of `handleCustomTextChange`. -/
def handleCustomTextChange (answer : QuestionAnswer) (text : String) : QuestionAnswer :=
  { answer with custom_text := some text }

/-- Component-level text-change event: in the JSX the free-text input is
rendered only under the `hasOtherSelected && (<Input ... />)` guard, so
`handleCustomTextChange` can only fire while "other" is active. -/
def customTextEvent (answer : QuestionAnswer) (text : String) : QuestionAnswer :=
  if hasOtherSelected answer then handleCustomTextChange answer text else answer

/-- Predicate of one step of `allQuestionsAnswered`: the answer has a
selection, or has custom text whose trimmed value is non-empty. -/
def answerProvided (answer : QuestionAnswer) : Bool :=
  decide (answer.selected_options.length > 0) ||
    (match answer.custom_text with
     | some t => t.trim != ""
     | none => false)

/-- Translation of the `allQuestionsAnswered` memo. -/
def allQuestionsAnswered (answers : List QuestionAnswer) : Bool :=
  answers.all answerProvided

/-- Outcome of the awaited `userQuestionsApi.respond` call: it resolves, or
rejects with a thrown value that is an `Error` carrying message `m`
(`failure (some m)`) or a non-`Error` value (`failure none`). -/
inductive RespondOutcome where
  | success : RespondOutcome
  | failure : Option String → RespondOutcome
deriving DecidableEq, Repr

/-- Whether the outcome is the resolved case. -/
def RespondOutcome.isSuccess : RespondOutcome → Bool
  | RespondOutcome.success => true
  | RespondOutcome.failure _ => false

/-- Modelled from the spec: the body of `userQuestionsApi.respond` lives in the
API layer, which is not among the reviewed sources; per the spec, on success it
invalidates the external shared cache of all outstanding tasks/questions so
dependent views refetch, and on rejection it performs no invalidation. -/
def respondCacheInvalidated : RespondOutcome → Bool
  | RespondOutcome.success => true
  | RespondOutcome.failure _ => false

/-- Collector-level component state: the `isResponding`, `hasResponded` and
`error` state hooks, the per-question `answers` array, and the countdown's
current `timeLeft` in seconds. -/
structure CollectorState where
  isResponding : Bool
  hasResponded : Bool
  error : Option String
  answers : List QuestionAnswer
  timeLeft : Int
deriving DecidableEq, Repr

/-- Translation of `disabled = isResponding || hasResponded || timeLeft <= 0`. -/
def disabled (s : CollectorState) : Bool :=
  s.isResponding || s.hasResponded || decide (s.timeLeft ≤ 0)

/-- Truthiness test of the optional `executionProcessId` string: JavaScript
treats both `undefined` and the empty string as falsy. -/
def execIdPresent : Option String → Bool
  | none => false
  | some s => s != ""

/-- Message extraction `e instanceof Error ? e.message : 'Failed to send response'`. -/
def errorMessageOf : Option String → String
  | some m => m
  | none => "Failed to send response"

/-- Result of one (atomic) run of `handleSubmit`: the state after the event,
whether the outbound respond call was dispatched, and whether the shared cache
was invalidated. -/
structure SubmitResult where
  state : CollectorState
  callMade : Bool
  cacheInvalidated : Bool
deriving DecidableEq, Repr

/-- Translation of `handleSubmit`, with the awaited respond call's outcome an
explicit parameter. The early returns keep the state unchanged apart from the
missing-id error; on a dispatched call, `setIsResponding(true)` followed by the
`finally` block's `setIsResponding(false)` nets to `false` (the guard ensures
it was `false` on entry), success sets `hasResponded`, and rejection stores the
extracted message. -/
def handleSubmit (executionProcessId : Option String) (s : CollectorState)
    (outcome : RespondOutcome) : SubmitResult :=
  if disabled s || !allQuestionsAnswered s.answers then
    ⟨s, false, false⟩
  else if !execIdPresent executionProcessId then
    ⟨{ s with error := some "Missing executionProcessId" }, false, false⟩
  else
    match outcome with
    | RespondOutcome.success =>
        ⟨{ s with isResponding := false, hasResponded := true, error := none },
          true, respondCacheInvalidated RespondOutcome.success⟩
    | RespondOutcome.failure err =>
        ⟨{ s with isResponding := false, error := some (errorMessageOf err) },
          true, respondCacheInvalidated (RespondOutcome.failure err)⟩

/-- Translation of `totalSeconds` in `useQuestionCountdown`:
`Math.max(1, Math.floor((timeoutAt - requestedAt) / 1000))`, timestamps in
milliseconds. -/
def totalSecondsOf (requestedAt timeoutAt : Int) : Int :=
  max 1 (Int.fdiv (timeoutAt - requestedAt) 1000)

/-- Translation of the recomputed `timeLeft` value:
`Math.max(0, Math.floor((timeoutAt - now) / 1000))`. -/
def timeLeftAt (timeoutAt now : Int) : Int :=
  max 0 (Int.fdiv (timeoutAt - now) 1000)

/-- JavaScript `Math.round`: the floor of the argument plus one half. -/
def jsRound (q : ℚ) : Int := ⌊q + 1 / 2⌋

/-- Translation of `percent` in `useQuestionCountdown`:
`Math.max(0, Math.min(100, Math.round((timeLeft / totalSeconds) * 100)))`. -/
def percentOf (timeLeft totalSeconds : Int) : Int :=
  max 0 (min 100 (jsRound ((timeLeft : ℚ) / (totalSeconds : ℚ) * 100)))

/-! Helper lemmas shared by the claim theorems. -/

theorem jsStrLe_iff_le (a b : Nat) (ha : a < 10) (hb : b < 10) :
    jsStrLe a b ↔ a ≤ b := by
  have h : ∀ x < 10, ∀ y < 10, (jsStrLe x y ↔ x ≤ y) := by decide
  exact h a ha b hb

theorem jsSort_perm (l : List Nat) : (jsSort l).Perm l :=
  List.perm_insertionSort jsStrLe l

theorem jsSort_sorted (l : List Nat) : List.Sorted jsStrLe (jsSort l) :=
  List.sorted_insertionSort jsStrLe l

theorem jsSort_sorted_le (l : List Nat) (hb : ∀ x ∈ l, x < 10) :
    List.Sorted (· ≤ ·) (jsSort l) := by
  have hmem : ∀ x ∈ jsSort l, x < 10 := fun x hx =>
    hb x ((jsSort_perm l).subset hx)
  exact (jsSort_sorted l).imp_of_mem fun hx hy h =>
    (jsStrLe_iff_le _ _ (hmem _ hx) (hmem _ hy)).1 h

theorem decide_pos_eq_not_decide_nonpos (t : Int) :
    decide (0 < t) = !decide (t ≤ 0) := by
  by_cases h : t ≤ 0
  · simp [h, not_lt.mpr h]
  · simp [h, not_le.mp h]

theorem jsRound_intCast (n : Int) : jsRound (n : ℚ) = n := by
  rw [jsRound, Int.floor_int_add]
  norm_num

theorem jsRound_mono {p q : ℚ} (h : p ≤ q) : jsRound p ≤ jsRound q :=
  Int.floor_le_floor (by linarith)

/-- C6: for every single-select question and every prior answer state,
selecting option `i` yields exactly `[i]` with the free text cleared to
absent, and deselecting yields the empty selection. -/
theorem single_select_option (a : QuestionAnswer) (i : Nat) :
    (handleOptionChange false a i true).selected_options = [i]
    ∧ (handleOptionChange false a i true).custom_text = none
    ∧ (handleOptionChange false a i false).selected_options = [] := by
  cases h : a.custom_text <;>
    simp [handleOptionChange, hasOtherSelected, h]

/-- C7: enabling "other" sets the free text to the empty string, clears the
selection for single-select and keeps it for multi-select; disabling "other"
clears the free text to absent (selection untouched). -/
theorem other_toggle_spec (m : Bool) (a : QuestionAnswer) :
    (handleOtherToggle m a true).custom_text = some ""
    ∧ (handleOtherToggle false a true).selected_options = []
    ∧ (handleOtherToggle true a true).selected_options = a.selected_options
    ∧ (handleOtherToggle m a false).custom_text = none
    ∧ (handleOtherToggle m a false).selected_options = a.selected_options := by
  cases m <;> simp [handleOtherToggle]

/-- C10: editing the free text and disabling "other" only touch the
`custom_text` field; `selected_options` and `question_index` are unchanged. -/
theorem text_ops_frame (m : Bool) (a : QuestionAnswer) (t : String) :
    (handleCustomTextChange a t).selected_options = a.selected_options
    ∧ (handleCustomTextChange a t).question_index = a.question_index
    ∧ (handleOtherToggle m a false).selected_options = a.selected_options
    ∧ (handleOtherToggle m a false).question_index = a.question_index := by
  simp [handleCustomTextChange, handleOtherToggle]

/-- C8 counterexample: with "other" inactive, the `handleCustomTextChange`
handler is not a no-op — it activates "other" by storing the text. -/
theorem custom_text_change_not_noop :
    handleCustomTextChange ⟨0, [], none⟩ "hi" ≠ ⟨0, [], none⟩ := by decide

/-- C8 amended: the handler itself unconditionally stores the text (so it is
not a no-op while "other" is inactive); the no-op behaviour is realized by the
component, which renders the text input only while "other" is active, so the
component-level text-change event leaves the answer unchanged exactly then. -/
theorem custom_text_event_spec (a : QuestionAnswer) (t : String) :
    (hasOtherSelected a = false →
      customTextEvent a t = a ∧ handleCustomTextChange a t ≠ a)
    ∧ (hasOtherSelected a = true →
      customTextEvent a t = { a with custom_text := some t })
    ∧ (handleCustomTextChange a t).custom_text = some t
    ∧ (handleCustomTextChange a t).selected_options = a.selected_options := by
  refine ⟨fun h => ⟨?_, ?_⟩, fun h => ?_, rfl, rfl⟩
  · simp [customTextEvent, h]
  · have hn : a.custom_text = none := by
      cases hc : a.custom_text
      · rfl
      · simp [hasOtherSelected, hc] at h
    intro heq
    have := congrArg QuestionAnswer.custom_text heq
    rw [hn] at this
    exact Option.noConfusion this
  · simp [customTextEvent, h, handleCustomTextChange]

/-- C8 witness: concrete instance of the amended statement with "other"
inactive. -/
theorem custom_text_event_spec_witness :
    customTextEvent ⟨0, [], none⟩ "x" = ⟨0, [], none⟩
    ∧ handleCustomTextChange ⟨0, [], none⟩ "x" ≠ ⟨0, [], none⟩ :=
  (custom_text_event_spec ⟨0, [], none⟩ "x").1 rfl

/-- C4 counterexample: the JavaScript default sort orders numbers by their
decimal strings, so inserting 10 into the selection `[2]` produces `[10, 2]`,
which is not in ascending numeric order; and re-adding an already selected
index duplicates it. -/
theorem multi_select_option_cex :
    (handleOptionChange true ⟨0, [2], none⟩ 10 true).selected_options = [10, 2]
    ∧ ¬ List.Sorted (· ≤ ·)
        ((handleOptionChange true ⟨0, [2], none⟩ 10 true).selected_options)
    ∧ (handleOptionChange true ⟨0, [2], none⟩ 2 true).selected_options = [2, 2]
    ∧ ¬ ((handleOptionChange true ⟨0, [2], none⟩ 2 true).selected_options).Nodup := by
  decide

/-- C4 amended: for multi-select, `setOption(i, true)` appends `i` and sorts
by the decimal-string order; provided every index involved is a single digit
and `i` was not already selected, the result is the original selection plus
`i`, duplicate-free and sorted ascending. `setOption(i, false)` removes every
occurrence of `i` and preserves uniqueness. -/
theorem multi_select_option (a : QuestionAnswer) (i : Nat)
    (hb : ∀ x ∈ a.selected_options, x < 10) (hi : i < 10)
    (hnd : a.selected_options.Nodup) (hni : i ∉ a.selected_options) :
    ((handleOptionChange true a i true).selected_options).Perm
        (a.selected_options ++ [i])
    ∧ List.Sorted (· ≤ ·) ((handleOptionChange true a i true).selected_options)
    ∧ ((handleOptionChange true a i true).selected_options).Nodup
    ∧ (∀ x, x ∈ (handleOptionChange true a i false).selected_options ↔
        (x ∈ a.selected_options ∧ x ≠ i))
    ∧ ((handleOptionChange true a i false).selected_options).Nodup := by
  have hsel : (handleOptionChange true a i true).selected_options
      = jsSort (a.selected_options ++ [i]) := rfl
  have hdesel : (handleOptionChange true a i false).selected_options
      = a.selected_options.filter (fun x => x != i) := rfl
  have hperm : (jsSort (a.selected_options ++ [i])).Perm
      (a.selected_options ++ [i]) := jsSort_perm _
  have hball : ∀ x ∈ a.selected_options ++ [i], x < 10 := by
    intro x hx
    rcases List.mem_append.1 hx with h | h
    · exact hb x h
    · rcases List.mem_singleton.1 h with rfl
      exact hi
  have happnd : (a.selected_options ++ [i]).Nodup := by
    simp [List.nodup_append, hnd, hni]
  refine ⟨hsel ▸ hperm, hsel ▸ jsSort_sorted_le _ hball,
    hsel ▸ hperm.symm.nodup happnd, ?_, hdesel ▸ hnd.filter _⟩
  intro x
  rw [hdesel]
  simp [List.mem_filter]

/-- C4 witness: concrete single-digit instance of the amended statement. -/
theorem multi_select_option_witness :
    ((handleOptionChange true ⟨0, [0, 1], none⟩ 2 true).selected_options).Perm [0, 1, 2]
    ∧ List.Sorted (· ≤ ·)
        ((handleOptionChange true ⟨0, [0, 1], none⟩ 2 true).selected_options)
    ∧ ((handleOptionChange true ⟨0, [0, 1], none⟩ 2 true).selected_options).Nodup
    ∧ (∀ x, x ∈ (handleOptionChange true ⟨0, [0, 1], none⟩ 2 false).selected_options ↔
        (x ∈ ([0, 1] : List Nat) ∧ x ≠ 2))
    ∧ ((handleOptionChange true ⟨0, [0, 1], none⟩ 2 false).selected_options).Nodup :=
  multi_select_option ⟨0, [0, 1], none⟩ 2 (by decide) (by decide) (by decide) (by decide)

/-- C5 counterexample: from the unsorted starting selection `[1, 0]` (option 2
not selected), toggling option 2 twice leaves the selection `[0, 1]`, not the
original list. -/
theorem multi_toggle_cex :
    handleOptionChange true (handleOptionChange true ⟨0, [1, 0], none⟩ 2 true) 2 false
      ≠ ⟨0, [1, 0], none⟩ := by
  decide

/-- C5 amended: toggling an unselected option `i` twice restores a selection
with exactly the original elements; and when the original list is duplicate
free in effect — sorted ascending with single-digit indices — the answer is
restored exactly. -/
theorem multi_toggle_roundtrip (a : QuestionAnswer) (i : Nat)
    (hni : i ∉ a.selected_options)
    (hb : ∀ x ∈ a.selected_options, x < 10) (hi : i < 10)
    (hs : List.Sorted (· ≤ ·) a.selected_options) :
    ((handleOptionChange true (handleOptionChange true a i true) i false).selected_options).Perm
        a.selected_options
    ∧ handleOptionChange true (handleOptionChange true a i true) i false = a := by
  have hr : (handleOptionChange true (handleOptionChange true a i true) i false).selected_options
      = (jsSort (a.selected_options ++ [i])).filter (fun x => x != i) := rfl
  have hfilter : (a.selected_options ++ [i]).filter (fun x => x != i)
      = a.selected_options := by
    rw [List.filter_append]
    have h1 : a.selected_options.filter (fun x => x != i) = a.selected_options :=
      List.filter_eq_self.mpr fun x hx => bne_iff_ne.mpr fun he => hni (he ▸ hx)
    have h2 : ([i].filter (fun x => x != i)) = ([] : List Nat) := by simp
    rw [h1, h2, List.append_nil]
  have hperm : ((jsSort (a.selected_options ++ [i])).filter (fun x => x != i)).Perm
      a.selected_options := by
    have := (jsSort_perm (a.selected_options ++ [i])).filter (fun x => x != i)
    rwa [hfilter] at this
  have hball : ∀ x ∈ a.selected_options ++ [i], x < 10 := by
    intro x hx
    rcases List.mem_append.1 hx with h | h
    · exact hb x h
    · rcases List.mem_singleton.1 h with rfl
      exact hi
  have hsorted : List.Sorted (· ≤ ·)
      ((jsSort (a.selected_options ++ [i])).filter (fun x => x != i)) :=
    (jsSort_sorted_le _ hball).sublist (List.filter_sublist _)
  have heq : (jsSort (a.selected_options ++ [i])).filter (fun x => x != i)
      = a.selected_options :=
    List.eq_of_perm_of_sorted hperm hsorted hs
  refine ⟨hr ▸ hperm, ?_⟩
  have hstep : handleOptionChange true (handleOptionChange true a i true) i false
      = { a with selected_options :=
            (jsSort (a.selected_options ++ [i])).filter (fun x => x != i) } := rfl
  rw [hstep, heq]

/-- C5 witness: concrete instance of the amended round-trip statement. -/
theorem multi_toggle_roundtrip_witness :
    ((handleOptionChange true (handleOptionChange true ⟨0, [0, 1], none⟩ 2 true) 2 false).selected_options).Perm
        [0, 1]
    ∧ handleOptionChange true (handleOptionChange true ⟨0, [0, 1], none⟩ 2 true) 2 false
        = ⟨0, [0, 1], none⟩ :=
  multi_toggle_roundtrip ⟨0, [0, 1], none⟩ 2 (by decide) (by decide) (by decide) (by decide)

/-- C2: the respond call is dispatched exactly when every question is
answered, the countdown is positive, no submission is in flight, none has
succeeded, and the process id is present; and `hasResponded` is set exactly by
a dispatched successful call (so after a success it stays set, and a set
`hasResponded` blocks any further call). -/
theorem submit_call_guard (e : Option String) (s : CollectorState) (o : RespondOutcome) :
    (handleSubmit e s o).callMade
      = (allQuestionsAnswered s.answers && decide (0 < s.timeLeft)
          && !s.isResponding && !s.hasResponded && execIdPresent e)
    ∧ (handleSubmit e s o).state.hasResponded
      = (s.hasResponded || ((handleSubmit e s o).callMade && o.isSuccess)) := by
  rcases s with ⟨ir, hr, er, ans, tl⟩
  constructor
  · cases hd : decide (tl ≤ 0) <;> cases ir <;> cases hr <;>
      cases ha : allQuestionsAnswered ans <;> cases he : execIdPresent e <;>
      cases o <;>
      simp [handleSubmit, disabled, ha, he, hd, decide_pos_eq_not_decide_nonpos]
  · cases hd : decide (tl ≤ 0) <;> cases ir <;> cases hr <;>
      cases ha : allQuestionsAnswered ans <;> cases he : execIdPresent e <;>
      cases o <;>
      simp [handleSubmit, disabled, ha, he, hd, RespondOutcome.isSuccess]

/-- C1: the external cache of outstanding tasks/questions is invalidated
exactly on the transition into `Submitted`, equivalently exactly when a
dispatched respond call succeeds (the invalidation itself is delegated to the
respond collaborator, modelled from the spec). -/
theorem submitted_invalidates_cache (e : Option String) (s : CollectorState)
    (o : RespondOutcome) :
    (handleSubmit e s o).cacheInvalidated
      = (!s.hasResponded && (handleSubmit e s o).state.hasResponded)
    ∧ (handleSubmit e s o).cacheInvalidated
      = ((handleSubmit e s o).callMade && respondCacheInvalidated o) := by
  rcases s with ⟨ir, hr, er, ans, tl⟩
  constructor <;>
    (cases hd : decide (tl ≤ 0) <;> cases ir <;> cases hr <;>
      cases ha : allQuestionsAnswered ans <;> cases he : execIdPresent e <;>
      cases o <;>
      simp [handleSubmit, disabled, ha, he, hd, respondCacheInvalidated])

/-- C3: when a dispatched respond call rejects, the stored error is the
failure's message (or the generic fallback when the thrown value carries
none), the collector is back in `Answering` with the answers untouched and
still all answered, and a further submit attempt is dispatched again. -/
theorem submit_failure_recovery (e : Option String) (s : CollectorState)
    (err : Option String)
    (h : (handleSubmit e s (RespondOutcome.failure err)).callMade = true) :
    (handleSubmit e s (RespondOutcome.failure err)).state.error
        = some (errorMessageOf err)
    ∧ errorMessageOf none = "Failed to send response"
    ∧ (∀ m, errorMessageOf (some m) = m)
    ∧ (handleSubmit e s (RespondOutcome.failure err)).state.hasResponded = false
    ∧ (handleSubmit e s (RespondOutcome.failure err)).state.isResponding = false
    ∧ (handleSubmit e s (RespondOutcome.failure err)).state.answers = s.answers
    ∧ allQuestionsAnswered
        (handleSubmit e s (RespondOutcome.failure err)).state.answers = true
    ∧ (∀ o : RespondOutcome,
        (handleSubmit e (handleSubmit e s (RespondOutcome.failure err)).state o).callMade
          = true) := by
  by_cases hg : (disabled s || !allQuestionsAnswered s.answers) = true
  · rw [handleSubmit, if_pos hg] at h
    exact absurd h (by simp)
  · have hgf : (disabled s || !allQuestionsAnswered s.answers) = false :=
      Bool.eq_false_iff.mpr hg
    have hdis : disabled s = false := (Bool.or_eq_false_iff.mp hgf).1
    have hans : allQuestionsAnswered s.answers = true := by
      have h2 := (Bool.or_eq_false_iff.mp hgf).2
      simpa using h2
    obtain ⟨hir, hhr, htl0⟩ :
        s.isResponding = false ∧ s.hasResponded = false
          ∧ decide (s.timeLeft ≤ 0) = false := by
      have h3 := hdis
      rw [disabled] at h3
      rcases Bool.or_eq_false_iff.mp h3 with ⟨h4, h5⟩
      rcases Bool.or_eq_false_iff.mp h4 with ⟨h6, h7⟩
      exact ⟨h6, h7, h5⟩
    by_cases he : execIdPresent e = true
    · have hrun : handleSubmit e s (RespondOutcome.failure err)
          = ⟨{ s with isResponding := false, error := some (errorMessageOf err) },
              true, respondCacheInvalidated (RespondOutcome.failure err)⟩ := by
        rw [handleSubmit, if_neg (by simp [hgf]), if_neg (by simp [he])]
      rw [hrun]
      refine ⟨rfl, rfl, fun m => rfl, hhr, rfl, rfl, hans, ?_⟩
      intro o
      have hgf2 :
          (disabled ({ s with isResponding := false, error := some (errorMessageOf err) } : CollectorState) || !allQuestionsAnswered s.answers) = false := by
        simp [disabled, hhr, hans, htl0]
      cases o <;>
        rw [handleSubmit, if_neg (by simp [hgf2]), if_neg (by simp [he])]
    · rw [handleSubmit, if_neg (by simp [hgf]),
        if_pos (by simp [Bool.eq_false_iff.mpr he])] at h
      exact absurd h (by simp)

/-- C3 witness: a concrete rejected call with message "network error". -/
theorem submit_failure_recovery_witness :
    (handleSubmit (some "proc")
        ⟨false, false, none, [⟨0, [0], none⟩], 30⟩
        (RespondOutcome.failure (some "network error"))).state.error
      = some "network error"
    ∧ (handleSubmit (some "proc")
        ⟨false, false, none, [⟨0, [0], none⟩], 30⟩
        (RespondOutcome.failure (some "network error"))).state.hasResponded = false
    ∧ allQuestionsAnswered
        (handleSubmit (some "proc")
          ⟨false, false, none, [⟨0, [0], none⟩], 30⟩
          (RespondOutcome.failure (some "network error"))).state.answers = true := by
  have h := submit_failure_recovery (some "proc")
    ⟨false, false, none, [⟨0, [0], none⟩], 30⟩ (some "network error") (by decide)
  exact ⟨h.1, h.2.2.2.1, h.2.2.2.2.2.2.1⟩

/-- C9: the countdown's whole-second total is `max 1 (timeout - request)` and
the remaining value is `max 0 (timeout - now)` (both via the floored
millisecond difference, stated here for second-aligned differences); the
displayed percent equals `remaining / total * 100` clamped to `[0, 100]` and
rounded to the nearest whole percent; in particular with a 60-second window,
one second past the deadline gives remaining 0 and percent 0, and the halfway
point gives remaining 30 and percent 50. -/
theorem countdown_formulas :
    (∀ T0 : Int, totalSecondsOf T0 (T0 + 60000) = 60
      ∧ timeLeftAt (T0 + 60000) (T0 + 61000) = 0
      ∧ timeLeftAt (T0 + 60000) (T0 + 30000) = 30)
    ∧ percentOf 0 60 = 0
    ∧ percentOf 30 60 = 50
    ∧ (∀ r d : Int, totalSecondsOf r (r + 1000 * d) = max 1 d)
    ∧ (∀ t d : Int, timeLeftAt t (t - 1000 * d) = max 0 d)
    ∧ (∀ tl total : Int,
        percentOf tl total
          = jsRound (max 0 (min 100 ((tl : ℚ) / (total : ℚ) * 100)))) := by
  have hfd : ∀ d : Int, Int.fdiv (1000 * d) 1000 = d := fun d =>
    Int.mul_fdiv_cancel_left d (by norm_num)
  have htot : ∀ r d : Int, totalSecondsOf r (r + 1000 * d) = max 1 d := by
    intro r d
    rw [totalSecondsOf]
    have h1 : r + 1000 * d - r = 1000 * d := by ring
    rw [h1, hfd]
  have htl : ∀ t d : Int, timeLeftAt t (t - 1000 * d) = max 0 d := by
    intro t d
    rw [timeLeftAt]
    have h1 : t - (t - 1000 * d) = 1000 * d := by ring
    rw [h1, hfd]
  have hpercent : ∀ tl total : Int,
      percentOf tl total
        = jsRound (max 0 (min 100 ((tl : ℚ) / (total : ℚ) * 100))) := by
    intro tl total
    rw [percentOf]
    set q : ℚ := (tl : ℚ) / (total : ℚ) * 100 with hq
    have h0 : jsRound ((0 : ℚ)) = 0 := by
      have := jsRound_intCast 0
      simpa using this
    have h100 : jsRound ((100 : ℚ)) = 100 := by
      have := jsRound_intCast 100
      simpa using this
    rcases le_total q 0 with hle | hge
    · have hmin : min (100 : ℚ) q = q := min_eq_right (hle.trans (by norm_num))
      have hmax : max (0 : ℚ) (min 100 q) = 0 := by rw [hmin]; exact max_eq_left hle
      have hjr : jsRound q ≤ 0 := h0 ▸ jsRound_mono hle
      rw [hmax, h0]
      omega
    · rcases le_total 100 q with h1 | h1
      · have hmin : min (100 : ℚ) q = 100 := min_eq_left h1
        have hmax : max (0 : ℚ) (min 100 q) = 100 := by
          rw [hmin]; exact max_eq_right (by norm_num)
        have hjr : 100 ≤ jsRound q := h100 ▸ jsRound_mono h1
        rw [hmax, h100]
        omega
      · have hmin : min (100 : ℚ) q = q := min_eq_right h1
        have hmax : max (0 : ℚ) (min 100 q) = q := by rw [hmin]; exact max_eq_right hge
        have hjr0 : 0 ≤ jsRound q := h0 ▸ jsRound_mono hge
        have hjr100 : jsRound q ≤ 100 := h100 ▸ jsRound_mono h1
        rw [hmax]
        omega
  refine ⟨?_, ?_, ?_, htot, htl, hpercent⟩
  · intro T0
    refine ⟨?_, ?_, ?_⟩
    · have h1 : T0 + 60000 = T0 + 1000 * 60 := by ring
      rw [h1, htot]
      decide
    · rw [timeLeftAt]
      have h1 : T0 + 60000 - (T0 + 61000) = -1000 := by ring
      rw [h1]
      decide
    · have h1 : T0 + 30000 = (T0 + 60000) - 1000 * 30 := by ring
      rw [h1, htl]
      decide
  · rw [hpercent]
    have h1 : ((0 : Int) : ℚ) / ((60 : Int) : ℚ) * 100 = 0 := by norm_num
    rw [h1]
    have h2 : max (0 : ℚ) (min 100 0) = 0 := by norm_num
    rw [h2]
    have := jsRound_intCast 0
    simpa using this
  · rw [hpercent]
    have h1 : ((30 : Int) : ℚ) / ((60 : Int) : ℚ) * 100 = 50 := by norm_num
    rw [h1]
    have h2 : max (0 : ℚ) (min 100 50) = 50 := by norm_num
    rw [h2]
    have := jsRound_intCast 50
    simpa using this

end VibeKanban
